import Mathlib

/-!
Verification of the health-metric synchronization engine of the
health-monitor-app repository, as a shallow embedding in Lean 4.

The embedded code:
* `HealthMetric` — the `HealthMetric` type of `src/services/api.ts`
  (re-exported inside `screens/GlucoseScreen.tsx`).
* `Json`, `getField`, `truthy` — a model of the JavaScript values produced by
  `JSON.parse` and of the property accesses / truthiness tests the handlers
  perform on them.
* `LiveSession.onChannelMessage` — the `socket.onmessage` handler of
  `src/screens/LiveSessionScreen.tsx` (lines 260-277).
* `LiveSession.loadMetrics` — the `loadMetrics` callback of the same screen
  (lines 229-249).
* `LiveSession.sessionStep` — the connection-state transitions of the same
  screen: the `useLiveKitRoom` callbacks (lines 309-337) and `retryConnect`
  (lines 302-307).
* `MetricsStore.*` — `src/services/metricsStore.ts` (both the in-memory and
  the sqlite backend, the module-level `db` handle and the public entry
  points).
* `Api.fetchLatestMetricsModel` — `fetchLatestMetrics` of `src/services/api.ts`.
-/

/-- The `HealthMetric` record of `src/services/api.ts`:
`{ id: number; metric_type: string; value: number; unit?: string | null; recorded_at: string }`. -/
structure HealthMetric where
  id : Int
  metric_type : String
  value : Int
  unit : Option String
  recorded_at : String
deriving DecidableEq, Repr

/-- JavaScript values as produced by `JSON.parse` on a JSON text. -/
inductive Json where
  | null : Json
  | bool (b : Bool) : Json
  | num (n : Int) : Json
  | str (s : String) : Json
  | arr (elems : List Json) : Json
  | obj (fields : List (String × Json)) : Json

/-- Property lookup on a JavaScript object: when `JSON.parse` sees a duplicate
key the later binding wins, so the lookup returns the last matching binding. -/
def lookupLast (key : String) : List (String × Json) → Option Json
  | [] => none
  | (k, v) :: rest =>
    match lookupLast key rest with
    | some w => some w
    | none => if k == key then some v else none

/-- `j.key` / `j?.key`: property access on a parsed payload.  On a non-object
it yields `undefined` (modelled `none`); on `null` the unguarded access in the
source throws a `TypeError`, which the surrounding `try` swallows, so the net
effect on the state is the same as the `none` result modelled here. -/
def getField (j : Json) (key : String) : Option Json :=
  match j with
  | .obj fields => lookupLast key fields
  | _ => none

/-- JavaScript truthiness of a parsed JSON value. -/
def truthy : Json → Bool
  | .null => false
  | .bool b => b
  | .num n => n != 0
  | .str s => s != ""
  | .arr _ => true
  | .obj _ => true

/-- Truthiness of a possibly-absent property (`undefined` is falsy). -/
def truthyOpt : Option Json → Bool
  | none => false
  | some j => truthy j

/-- The unchecked TypeScript cast `payload as HealthMetric`: the handler reads
the fields off the parsed object with no validation; absent or ill-typed
fields are modelled by the value the renderer would observe as a default. -/
def asMetric (j : Json) : HealthMetric where
  id := match getField j "id" with | some (.num n) => n | _ => 0
  metric_type := match getField j "metric_type" with | some (.str s) => s | _ => ""
  value := match getField j "value" with | some (.num n) => n | _ => 0
  unit := match getField j "unit" with | some (.str s) => some s | _ => none
  recorded_at := match getField j "recorded_at" with | some (.str s) => s | _ => ""

/-- The JSON object the backend sends for one reading, with `unit` serialized
as JSON `null` when absent. -/
def metricToJson (m : HealthMetric) : Json :=
  .obj [("id", .num m.id), ("metric_type", .str m.metric_type),
        ("value", .num m.value),
        ("unit", match m.unit with | some u => .str u | none => .null),
        ("recorded_at", .str m.recorded_at)]

namespace LiveSession

/-- The metric-related state of `LiveSessionScreen`: the `metrics` React state
(the Authoritative View), the contents of the Local Metric Store's in-memory
backend (the `memoryCache` array of `metricsStore.ts`, the backend selected
when sqlite is unavailable), and the `metricsError` React state. -/
structure SyncState where
  metrics : List HealthMetric
  cache : List HealthMetric
  metricsError : Option String
deriving DecidableEq, Repr

/-- `payload.type === 'snapshot' && Array.isArray(payload.data)`. -/
def isSnapshotShape (j : Json) : Bool :=
  (match getField j "type" with
   | some (.str s) => s == "snapshot"
   | _ => false)
  &&
  (match getField j "data" with
   | some (.arr _) => true
   | _ => false)

/-- The `data` array of a snapshot payload (only consulted under
`isSnapshotShape`). -/
def dataField (j : Json) : List Json :=
  match getField j "data" with
  | some (.arr xs) => xs
  | _ => []

/-- The `socket.onmessage` handler of `LiveSessionScreen.tsx` (lines 260-277).
The argument is the result of `JSON.parse(event.data)`: `none` when the text
is not parseable JSON (the handler's `try` catches the throw and does
nothing).  A snapshot payload replaces the view (`setMetrics(snapshot)`) and
the store (`storeMetrics(snapshot)`, which on the memory backend clears and
refills `memoryCache`).  A payload with a truthy `metric_type` is prepended to
the view, which is then truncated to 50 (`[metric, ...prev].slice(0, 50)`),
and `addMetric` unshifts it onto the store.  Anything else is ignored. -/
def onChannelMessage (st : SyncState) (raw : Option Json) : SyncState :=
  match raw with
  | none => st
  | some payload =>
    if isSnapshotShape payload then
      let snapshot := (dataField payload).map asMetric
      { st with metrics := snapshot, cache := snapshot }
    else if truthyOpt (getField payload "metric_type") then
      let m := asMetric payload
      { st with metrics := (m :: st.metrics).take 50, cache := m :: st.cache }
    else st

/-- A channel message classified as malformed by the source handler: not
parseable JSON, or parseable but matching neither the snapshot shape nor the
bare-reading shape (truthy `metric_type`). -/
def isMalformed (raw : Option Json) : Bool :=
  match raw with
  | none => true
  | some j => !(isSnapshotShape j) && !(truthyOpt (getField j "metric_type"))

/-- The wire form `{"type":"snapshot","data":[...]}` of a snapshot carrying
the given readings. -/
def snapshotMessage (rs : List HealthMetric) : Json :=
  .obj [("type", .str "snapshot"), ("data", .arr (rs.map metricToJson))]

/-- Processing a list of channel messages in delivery order. -/
def processMessages (st : SyncState) (msgs : List (Option Json)) : SyncState :=
  msgs.foldl onChannelMessage st

/-- The fetch outcome observed by `loadMetrics`: either the decoded list from
`fetchLatestMetrics`, or the message of the error it threw. -/
inductive FetchResult where
  | ok (latest : List HealthMetric)
  | err (message : String)

/-- The `loadMetrics` callback of `LiveSessionScreen.tsx` (lines 229-249), as
a function of the current state and of the fetch outcome.  On success it
replaces the view and mirrors it into the store (`storeMetrics`); on failure
it records the error message and, only when the view is empty, loads
`loadCachedMetrics(20)` and installs the result if it is non-empty.  (The
`metricsLoading` flag and the store's possible own failure after a successful
fetch are outside the claims modelled here.) -/
def loadMetrics (st : SyncState) (r : FetchResult) : SyncState :=
  match r with
  | .ok latest => { metrics := latest, cache := latest, metricsError := none }
  | .err message =>
    let st1 := { st with metricsError := some message }
    if st.metrics.isEmpty then
      let cached := st.cache.take 20
      if cached.isEmpty then st1 else { st1 with metrics := cached }
    else st1

/-- The `connectionState` React state of `LiveSessionScreen.tsx` (lines
210-213): its TypeScript type is the union
`'connecting' | 'connected' | 'disconnected' | 'error'` — the screen has no
degraded state. -/
inductive ConnState where
  | connecting
  | connected
  | disconnected
  | error
deriving DecidableEq, Repr

/-- The categories of `MediaDeviceFailure` distinguished by the handler. -/
inductive MediaFailure where
  | permissionDenied
  | notFound
  | deviceInUse
  | other
deriving DecidableEq, Repr

/-- The advisory text chosen by the `onMediaDeviceFailure` callback (lines
327-336): the permission-denied text for `PermissionDenied`, the generic text
for every other category. -/
def mediaFailureMessage : MediaFailure → String
  | .permissionDenied => "Camera or microphone permission denied. Enable access in Settings."
  | _ => "Camera/microphone failed to start. Try reconnecting."

/-- The message installed by the `onDisconnected` callback. -/
def disconnectedMessage : String :=
  "Disconnected before media negotiation completed."

/-- The session-coordination state of `LiveSessionScreen`: `connectionState`,
`errorMessage`, `mediaErrorMessage` and the `connectKey` attempt counter. -/
structure SessionState where
  conn : ConnState
  errorMessage : Option String
  mediaErrorMessage : Option String
  connectKey : Nat
deriving DecidableEq, Repr

/-- The external signals handled by the screen: the `useLiveKitRoom`
callbacks (`onConnected`, `onDisconnected`, `onError`,
`onMediaDeviceFailure`, the last with `none` for a nullish failure argument)
and the operator-triggered `retryConnect`. -/
inductive SessionEvent where
  | onConnected
  | onDisconnected
  | onError (message : String)
  | onMediaDeviceFailure (failure : Option MediaFailure)
  | retryConnect

/-- The state transitions of `LiveSessionScreen.tsx`: the `useLiveKitRoom`
callbacks (lines 309-337) and `retryConnect` (lines 302-307), each written
exactly as the sequence of `set...` calls it performs.  None of the callbacks
inspects the current `connectionState`, so each fires from any state. -/
def sessionStep (st : SessionState) (e : SessionEvent) : SessionState :=
  match e with
  | .onConnected => { st with conn := .connected, errorMessage := none }
  | .onDisconnected => { st with conn := .disconnected, errorMessage := some disconnectedMessage }
  | .onError message => { st with conn := .error, errorMessage := some message }
  | .onMediaDeviceFailure none => st
  | .onMediaDeviceFailure (some f) => { st with mediaErrorMessage := some (mediaFailureMessage f) }
  | .retryConnect =>
    { conn := .connecting, errorMessage := none, mediaErrorMessage := none,
      connectKey := st.connectKey + 1 }

/-- The transition relation asserted by the specification, restricted to the
four states the code can represent (the specification's `degraded` state does
not exist in the code, so transitions into or out of it are unrepresentable):
`connecting → {connected, error}`, `connected → {degraded, disconnected,
error}`, and `disconnected`/`error` leavable only by the operator-triggered
reconnect (an exit to `connecting`, handled separately from this relation). -/
def specAllowedTransition : ConnState → ConnState → Bool
  | .connecting, .connected => true
  | .connecting, .error => true
  | .connected, .disconnected => true
  | .connected, .error => true
  | _, _ => false

end LiveSession

namespace MetricsStore

/-- The two interchangeable backends of `metricsStore.ts`: the sqlite-backed
`createSqliteDb` and the process-memory `createMemoryDb`. -/
inductive Backend where
  | sqlite
  | memory
deriving DecidableEq, Repr

/-- The module-level state of `metricsStore.ts`: the `db` handle (`null`
until first use), whether `require('react-native-sqlite-storage')` succeeds
in this process (fixed for the process lifetime), whether the sqlite
`metrics` table has been created, the `memoryCache` array, and the rows of
the sqlite `metrics` table. -/
structure StoreState where
  db : Option Backend
  sqliteAvailable : Bool
  tableCreated : Bool
  memCache : List HealthMetric
  sqliteRows : List HealthMetric
deriving DecidableEq, Repr

/-- `db.init()`: for sqlite, `CREATE TABLE IF NOT EXISTS metrics ...`
(idempotent, touches no rows); for the memory backend, a no-op. -/
def backendInit (b : Backend) (st : StoreState) : StoreState :=
  match b with
  | .sqlite => { st with tableCreated := true }
  | .memory => st

/-- `initMetricsDb` (lines 75-89): when `db` is already set it only re-runs
`db.init()`; otherwise it selects the sqlite backend when the module loads
and the memory backend when the `require` throws, then runs `init()`. -/
def initMetricsDb (st : StoreState) : StoreState :=
  match st.db with
  | some b => backendInit b st
  | none =>
    let b := if st.sqliteAvailable then Backend.sqlite else Backend.memory
    backendInit b { st with db := some b }

/-- `INSERT OR REPLACE` keyed on the `id` primary key: the row with the same
`id` is replaced, otherwise the row is appended. -/
def upsertById (rows : List HealthMetric) (m : HealthMetric) : List HealthMetric :=
  (rows.filter fun r => r.id != m.id) ++ [m]

/-- Insertion step of `ORDER BY recorded_at DESC`. -/
def insertByRecencyDesc (m : HealthMetric) : List HealthMetric → List HealthMetric
  | [] => [m]
  | x :: xs =>
    if x.recorded_at < m.recorded_at then m :: x :: xs else x :: insertByRecencyDesc m xs

/-- `SELECT ... ORDER BY recorded_at DESC`. -/
def sortByRecordedAtDesc (rows : List HealthMetric) : List HealthMetric :=
  rows.foldr insertByRecencyDesc []

/-- `db.loadCachedMetrics(limit)`: memory backend `memoryCache.slice(0,
limit)`; sqlite backend the newest `limit` rows by `recorded_at`. -/
def backendLoad (b : Backend) (st : StoreState) (limit : Nat) : List HealthMetric :=
  match b with
  | .memory => st.memCache.take limit
  | .sqlite => (sortByRecordedAtDesc st.sqliteRows).take limit

/-- `db.storeMetrics(ms)`: memory backend empties `memoryCache` and pushes
`ms`; sqlite backend `DELETE FROM metrics` then one `INSERT OR REPLACE` per
metric in order. -/
def backendStore (b : Backend) (st : StoreState) (ms : List HealthMetric) : StoreState :=
  match b with
  | .memory => { st with memCache := ms }
  | .sqlite => { st with sqliteRows := ms.foldl upsertById [] }

/-- `db.addMetric(m)`: memory backend `memoryCache.unshift(m)`; sqlite
backend one `INSERT OR REPLACE`. -/
def backendAdd (b : Backend) (st : StoreState) (m : HealthMetric) : StoreState :=
  match b with
  | .memory => { st with memCache := m :: st.memCache }
  | .sqlite => { st with sqliteRows := upsertById st.sqliteRows m }

/-- The `if (!db) { await initMetricsDb(); }` prologue shared by the three
public entry points. -/
def ensureDb (st : StoreState) : StoreState :=
  match st.db with
  | some _ => st
  | none => initMetricsDb st

/-- Public `loadCachedMetrics` (lines 91-96): ensures a backend, then
`db?.loadCachedMetrics(limit) ?? []` — the `?? []` default makes a missing
handle yield the empty list rather than a failure. -/
def loadCachedMetrics (st : StoreState) (limit : Nat) : StoreState × List HealthMetric :=
  let st1 := ensureDb st
  match st1.db with
  | some b => (st1, backendLoad b st1 limit)
  | none => (st1, [])

/-- Public `storeMetrics` (lines 98-103): ensures a backend, then
`db?.storeMetrics(metrics)`. -/
def storeMetrics (st : StoreState) (ms : List HealthMetric) : StoreState :=
  let st1 := ensureDb st
  match st1.db with
  | some b => backendStore b st1 ms
  | none => st1

/-- Public `addMetric` (lines 105-110): ensures a backend, then
`db?.addMetric(metric)`. -/
def addMetric (st : StoreState) (m : HealthMetric) : StoreState :=
  let st1 := ensureDb st
  match st1.db with
  | some b => backendAdd b st1 m
  | none => st1

end MetricsStore

namespace Api

/-- An HTTP response as observed by the fetcher: the `ok` flag, the text of
the body (`response.text()`), and the parse of the body as JSON
(`response.json()`, `none` when the body is not parseable JSON). -/
structure HttpResponse where
  ok : Bool
  body : String
  bodyJson : Option Json

/-- The three ways a call to `fetchLatestMetrics` can resolve: the decoded
list, the thrown `Error(detail || 'Failed to fetch metrics')` with its
message, or the rejection of `response.json()` on an unparseable success body
(whose message is engine-defined). -/
inductive FetchOutcome where
  | ok (metrics : List HealthMetric)
  | fetchFailed (message : String)
  | jsonFailed
deriving DecidableEq

/-- The unchecked cast `(await response.json()) as HealthMetric[]`: an array
body yields its decoded elements; any other JSON body reaches the caller
uninspected, modelled as the empty list. -/
def jsonToMetricList : Json → List HealthMetric
  | .arr xs => xs.map asMetric
  | _ => []

/-- `fetchLatestMetrics` of `src/services/api.ts` (reproduced at
`screens/GlucoseScreen.tsx` lines 395-413), as a function of the single
response its one `fetch` call yields.  The second component counts the
network attempts the call performs; the body contains exactly one
unconditional `fetch` and no retry path, so it is 1 on every branch.  On a
non-`ok` response it throws `Error(detail || 'Failed to fetch metrics')`
where `detail` is the raw `response.text()`. -/
def fetchLatestMetricsModel (resp : HttpResponse) : FetchOutcome × Nat :=
  if resp.ok then
    match resp.bodyJson with
    | some j => (.ok (jsonToMetricList j), 1)
    | none => (.jsonFailed, 1)
  else
    (.fetchFailed (if resp.body = "" then "Failed to fetch metrics" else resp.body), 1)

end Api

/-! Concrete readings and states used by the scenario claims. -/

/-- The reading `{id:2, value:80}` of the spec scenario, with a non-empty
kind so that the handler recognizes its incremental form. -/
def hr80 : HealthMetric := ⟨2, "heart_rate", 80, none, "2024-01-01T00:00:00Z"⟩

/-- The re-delivered reading `{id:2, value:85}` of the spec scenario. -/
def hr85 : HealthMetric := ⟨2, "heart_rate", 85, none, "2024-01-01T00:05:00Z"⟩

/-- A reading with identity 1, distinct from `spo97`. -/
def hr70 : HealthMetric := ⟨1, "heart_rate", 70, none, "2024-01-01T00:00:00Z"⟩

/-- A reading with identity 3, distinct from `hr70`. -/
def spo97 : HealthMetric := ⟨3, "spo2", 97, none, "2024-01-01T00:01:00Z"⟩

/-- The state after the channel delivers snapshot `[hr80]` and then the
incremental reading `hr85` (same identity 2) to an initially empty view. -/
def c1Final : LiveSession.SyncState :=
  LiveSession.onChannelMessage
    (LiveSession.onChannelMessage ⟨[], [], none⟩ (some (LiveSession.snapshotMessage [hr80])))
    (some (metricToJson hr85))

/-- The state after an incremental `hr70` followed by a snapshot `[spo97]`
reach an initially empty view: two messages with distinct identities. -/
def c4Final : LiveSession.SyncState :=
  LiveSession.processMessages ⟨[], [], none⟩
    [some (metricToJson hr70), some (LiveSession.snapshotMessage [spo97])]

/-- The raw text of a JSON error body with a `detail` field. -/
def detailBody : String := "\x7b\"detail\":\"No metrics found\"\x7d"

/-- A non-success response whose body is JSON of the `detail` shape. -/
def detailResp : Api.HttpResponse :=
  ⟨false, detailBody, some (.obj [("detail", .str "No metrics found")])⟩

/-- A session sitting in `disconnected` while showing the permission-denied
media advisory. -/
def c7Start : LiveSession.SessionState :=
  ⟨.disconnected, none, some (LiveSession.mediaFailureMessage .permissionDenied), 0⟩

/-- A freshly connected session with no banner, at attempt counter `k`. -/
def c7Connected (k : Nat) : LiveSession.SessionState := ⟨.connected, none, none, k⟩

/-! Supporting lemmas. -/

open LiveSession MetricsStore Api

theorem asMetric_metricToJson (m : HealthMetric) : asMetric (metricToJson m) = m := by
  cases m with
  | mk id mt v u ra => cases u <;> rfl

theorem map_asMetric_metricToJson (rs : List HealthMetric) :
    (rs.map metricToJson).map asMetric = rs := by
  induction rs with
  | nil => rfl
  | cons r rest ih => simp [ih, asMetric_metricToJson]

theorem onChannelMessage_snapshot (st : SyncState) (rs : List HealthMetric) :
    onChannelMessage st (some (snapshotMessage rs)) = { st with metrics := rs, cache := rs } := by
  have hshape : isSnapshotShape (snapshotMessage rs) = true := by
    simp [isSnapshotShape, snapshotMessage, getField, lookupLast]
  have hdata : dataField (snapshotMessage rs) = rs.map metricToJson := by
    simp [dataField, snapshotMessage, getField, lookupLast]
  simp only [onChannelMessage, hshape, if_pos, hdata]
  rw [map_asMetric_metricToJson]

theorem onChannelMessage_incr (st : SyncState) (m : HealthMetric) (h : m.metric_type ≠ "") :
    onChannelMessage st (some (metricToJson m)) =
      { st with metrics := (m :: st.metrics).take 50, cache := m :: st.cache } := by
  have hshape : isSnapshotShape (metricToJson m) = false := by
    cases hu : m.unit <;> simp [isSnapshotShape, metricToJson, getField, lookupLast, hu]
  have hmt : truthyOpt (getField (metricToJson m) "metric_type") = true := by
    cases hu : m.unit <;>
      simp [truthyOpt, truthy, metricToJson, getField, lookupLast, hu, h]
  simp [onChannelMessage, hshape, hmt, asMetric_metricToJson]

theorem take_append_take {α : Type} (a b : List α) (n : Nat) :
    (a ++ b.take n).take n = (a ++ b).take n := by
  rw [List.take_append_eq_append_take, List.take_append_eq_append_take, List.take_take,
    Nat.min_eq_left (Nat.sub_le n a.length)]

theorem processMessages_incr (rs : List HealthMetric) (st : SyncState)
    (hkind : ∀ r ∈ rs, r.metric_type ≠ "") (hlen : st.metrics.length ≤ 50) :
    (processMessages st (rs.map fun r => some (metricToJson r))).metrics
      = (rs.reverse ++ st.metrics).take 50 := by
  induction rs generalizing st with
  | nil => simpa [processMessages] using (List.take_of_length_le hlen).symm
  | cons r rest ih =>
    have hr : r.metric_type ≠ "" := hkind r (by simp)
    have hrest : ∀ x ∈ rest, x.metric_type ≠ "" := fun x hx => hkind x (by simp [hx])
    have hstep := onChannelMessage_incr st r hr
    simp only [List.map_cons, processMessages, List.foldl_cons, hstep]
    have := ih { st with metrics := (r :: st.metrics).take 50, cache := r :: st.cache }
      hrest (by simp [List.length_take])
    simp only [processMessages] at this
    rw [this, take_append_take, List.reverse_cons, List.append_assoc, List.singleton_append]

theorem initMetricsDb_db_isSome (st : StoreState) : (initMetricsDb st).db.isSome := by
  cases h : st.db with
  | some b => cases b <;> simp [initMetricsDb, backendInit, h]
  | none => cases hs : st.sqliteAvailable <;> simp [initMetricsDb, backendInit, h, hs]

/-! Claim theorems. -/

/-- C1 counterexample: the snapshot `[hr80]` followed by the incremental
reading `hr85` with the same identity 2 yields a view of length 2 holding
both values, with two entries sharing identity 2 — the claimed idempotent
upsert (final view `[hr85]` of length 1) does not hold of the code, whose
incremental path prepends without de-duplicating. -/
theorem C1_counterexample :
    c1Final.metrics = [hr85, hr80] ∧
    c1Final.metrics.length = 2 ∧
    ¬ (c1Final.metrics.map fun r => r.id).Nodup := by
  decide

/-- C1 amended: a snapshot wholly replaces the view, but an incremental
channel message merely prepends the decoded reading and truncates the view to
the 50 newest, never removing an existing entry with the same identity; in
the spec scenario the final view is `[hr85, hr80]` of length 2. -/
theorem C1_amended (st : SyncState) (m : HealthMetric) (h : m.metric_type ≠ "") :
    (onChannelMessage st (some (metricToJson m))).metrics = (m :: st.metrics).take 50 ∧
    c1Final.metrics = [hr85, hr80] := by
  constructor
  · rw [onChannelMessage_incr st m h]
  · decide

/-- C1 witness: the amended claim applied to a concrete state and reading. -/
theorem C1_amended_witness :
    (onChannelMessage ⟨[hr80], [hr80], none⟩ (some (metricToJson hr85))).metrics
      = [hr85, hr80] ∧
    c1Final.metrics = [hr85, hr80] := by
  have h := C1_amended ⟨[hr80], [hr80], none⟩ hr85 (by decide)
  exact ⟨by rw [h.1]; decide, h.2⟩

/-- C2: when the fetch fails, `loadMetrics` records the error message; the
view is left unchanged unless it was empty, in which case it is replaced by
the store's `loadCachedMetrics(20)` result exactly when that result is
non-empty. -/
theorem C2_refresh_failure (st : SyncState) (message : String) :
    (loadMetrics st (.err message)).metricsError = some message ∧
    (loadMetrics st (.err message)).metrics =
      (if st.metrics = [] ∧ st.cache.take 20 ≠ [] then st.cache.take 20 else st.metrics) := by
  by_cases h1 : st.metrics = [] <;> by_cases h2 : st.cache.take 20 = [] <;>
    simp [loadMetrics, h1, h2, List.isEmpty_iff]

/-- C3: a snapshot channel message replaces both the Authoritative View and
the Local Metric Store contents with exactly the snapshot's readings,
whatever both held before. -/
theorem C3_snapshot_replaces (st : SyncState) (rs : List HealthMetric) :
    (onChannelMessage st (some (snapshotMessage rs))).metrics = rs ∧
    (onChannelMessage st (some (snapshotMessage rs))).cache = rs := by
  rw [onChannelMessage_snapshot]
  exact ⟨rfl, rfl⟩

/-- C4 counterexample: two channel messages with distinct identities — the
incremental `hr70` and then the snapshot `[spo97]` — applied to an empty
view leave a view that no longer contains the delivered reading `hr70`: a
snapshot discards prior deliveries, so the view does not contain exactly the
delivered readings. -/
theorem C4_counterexample :
    c4Final.metrics = [spo97] ∧ hr70 ∉ c4Final.metrics ∧ hr70.id ≠ spo97.id := by
  decide

/-- C4 amended: for every sequence of *incremental* channel messages with
distinct identities applied to an initially empty view, the view equals the
delivered readings newest-first by arrival truncated to the 50 newest, hence
never exceeds 50 entries and contains exactly the delivered readings whenever
at most 50 were delivered.  (Snapshot messages instead replace the view
wholesale, with no cap applied.) -/
theorem C4_amended (rs : List HealthMetric) (hkind : ∀ r ∈ rs, r.metric_type ≠ "")
    (hids : (rs.map fun r => r.id).Nodup) :
    (processMessages ⟨[], [], none⟩ (rs.map fun r => some (metricToJson r))).metrics
      = rs.reverse.take 50 ∧
    (processMessages ⟨[], [], none⟩ (rs.map fun r => some (metricToJson r))).metrics.length ≤ 50 ∧
    (rs.length ≤ 50 →
      (processMessages ⟨[], [], none⟩ (rs.map fun r => some (metricToJson r))).metrics
        = rs.reverse) := by
  have key := processMessages_incr rs ⟨[], [], none⟩ hkind (by simp)
  simp only [List.append_nil] at key
  refine ⟨key, ?_, ?_⟩
  · rw [key]; simp [List.length_take]
  · intro hle
    rw [key]
    exact List.take_of_length_le (by simpa using hle)

/-- C4 witness: the amended claim applied to the two-reading sequence
`[hr70, spo97]` of distinct identities. -/
theorem C4_amended_witness :
    (processMessages ⟨[], [], none⟩
        ([hr70, spo97].map fun r => some (metricToJson r))).metrics
      = [spo97, hr70] := by
  have h := C4_amended [hr70, spo97] (by decide) (by decide)
  simpa using h.2.2 (by decide)

/-- C5: a malformed channel payload — text that is not parseable JSON, or
JSON matching neither the snapshot shape nor the bare-reading shape — leaves
the whole state (view and store) unchanged; the handler is a total function
because the source wraps the body in a `try` whose `catch` ignores the
throw. -/
theorem C5_malformed_ignored (st : SyncState) (raw : Option Json)
    (h : isMalformed raw = true) :
    onChannelMessage st raw = st := by
  cases raw with
  | none => rfl
  | some j =>
    simp only [isMalformed, Bool.and_eq_true, Bool.not_eq_true'] at h
    simp [onChannelMessage, h.1, h.2]

/-- C5 witness: a JSON string payload matches neither shape and is dropped
with the state intact. -/
theorem C5_malformed_ignored_witness :
    isMalformed (some (Json.str "oops")) = true ∧
    onChannelMessage ⟨[hr80], [hr80], none⟩ (some (Json.str "oops"))
      = ⟨[hr80], [hr80], none⟩ :=
  ⟨by decide, C5_malformed_ignored ⟨[hr80], [hr80], none⟩ (some (Json.str "oops")) (by decide)⟩

/-- C6 counterexample: on a non-success response whose body is the JSON
object with a string `detail` field, `fetchLatestMetrics` throws the raw body
text, not the extracted `detail` message — the two-shape extraction the claim
attributes to it is absent (it exists only in `requestToken` of the
join-room screen). -/
theorem C6_counterexample :
    (fetchLatestMetricsModel detailResp).1 = .fetchFailed detailBody ∧
    detailBody ≠ "No metrics found" := by
  exact ⟨rfl, by decide⟩

/-- C6 amended: `fetchLatestMetrics` performs exactly one network attempt per
call with no internal retry, and on any non-success HTTP status fails with an
error whose message is the raw text of the response body, falling back to the
generic message when the body is empty. -/
theorem C6_amended (resp : Api.HttpResponse) :
    (fetchLatestMetricsModel resp).2 = 1 ∧
    (resp.ok = false → resp.body ≠ "" →
      (fetchLatestMetricsModel resp).1 = .fetchFailed resp.body) ∧
    (resp.ok = false → resp.body = "" →
      (fetchLatestMetricsModel resp).1 = .fetchFailed "Failed to fetch metrics") := by
  refine ⟨?_, ?_, ?_⟩
  · cases ho : resp.ok
    · simp [fetchLatestMetricsModel, ho]
    · cases hj : resp.bodyJson <;> simp [fetchLatestMetricsModel, ho, hj]
  · intro ho hb; simp [fetchLatestMetricsModel, ho, hb]
  · intro ho hb; simp [fetchLatestMetricsModel, ho, hb]

/-- C6 witness: the amended claim applied to the concrete `detail`-shaped
failure response. -/
theorem C6_amended_witness :
    (fetchLatestMetricsModel detailResp).2 = 1 ∧
    (fetchLatestMetricsModel detailResp).1 = .fetchFailed detailBody := by
  have h := C6_amended detailResp
  exact ⟨h.1, h.2.1 rfl (by decide)⟩

/-- C7 counterexample: from `disconnected` with the permission-denied
advisory showing, the operator's retry clears the advisory immediately on
entering `connecting`, and the attempt may then fail without ever
reconnecting — so the advisory does not persist until a successful
reconnect; moreover a successful connect (`onConnected`) never clears the
advisory at all. -/
theorem C7_counterexample :
    (sessionStep (sessionStep c7Start .retryConnect) (.onError "join failed")).mediaErrorMessage
      = none ∧
    (sessionStep c7Start .onConnected).mediaErrorMessage
      = some (mediaFailureMessage .permissionDenied) :=
  ⟨rfl, rfl⟩

/-- C7 amended: a media-device failure never changes the connection state,
the last-error message or the attempt counter — it only sets the advisory
message (a nullish failure changes nothing); in `connected`, a
permission-denied failure leaves the state `connected` with the
permission-denied advisory, the advisory persists across a subsequent
transition to `disconnected`, and it is cleared when the operator triggers a
reconnect attempt (re-entering `connecting`), regardless of that attempt's
eventual outcome. -/
theorem C7_amended (st : SessionState) (f : MediaFailure) (k : Nat) :
    (sessionStep st (.onMediaDeviceFailure (some f))).conn = st.conn ∧
    (sessionStep st (.onMediaDeviceFailure (some f))).errorMessage = st.errorMessage ∧
    (sessionStep st (.onMediaDeviceFailure (some f))).connectKey = st.connectKey ∧
    (sessionStep st (.onMediaDeviceFailure (some f))).mediaErrorMessage
      = some (mediaFailureMessage f) ∧
    sessionStep st (.onMediaDeviceFailure none) = st ∧
    (sessionStep (c7Connected k) (.onMediaDeviceFailure (some .permissionDenied))).conn
      = .connected ∧
    (sessionStep (c7Connected k) (.onMediaDeviceFailure (some .permissionDenied))).mediaErrorMessage
      = some (mediaFailureMessage .permissionDenied) ∧
    (sessionStep (sessionStep (c7Connected k) (.onMediaDeviceFailure (some .permissionDenied)))
        .onDisconnected).conn = .disconnected ∧
    (sessionStep (sessionStep (c7Connected k) (.onMediaDeviceFailure (some .permissionDenied)))
        .onDisconnected).mediaErrorMessage = some (mediaFailureMessage .permissionDenied) ∧
    (sessionStep (sessionStep (sessionStep (c7Connected k)
        (.onMediaDeviceFailure (some .permissionDenied))) .onDisconnected)
        .retryConnect).mediaErrorMessage = none :=
  ⟨rfl, rfl, rfl, rfl, rfl, rfl, rfl, rfl, rfl, rfl⟩

/-- C8 counterexample: the `onDisconnected` callback fires regardless of the
current state, so from `connecting` the session moves directly to
`disconnected` — a transition the claimed relation (`connecting → {connected,
error}` only) forbids. -/
theorem C8_counterexample :
    (sessionStep ⟨.connecting, none, none, 0⟩ .onDisconnected).conn = .disconnected ∧
    specAllowedTransition .connecting .disconnected = false :=
  ⟨rfl, rfl⟩

/-- C8 amended: the session state ranges over `{connecting, connected,
disconnected, error}` — the code has no `degraded` state — and the transport
callbacks are unguarded: from any state, connect success yields `connected`,
disconnect yields `disconnected`, a transport error yields `error`, a
media-device failure leaves the state unchanged, and the operator-triggered
reconnect re-enters `connecting` from any state with a fresh attempt
identifier (`connectKey` incremented). -/
theorem C8_amended (st : SessionState) (message : String) (f : Option MediaFailure) :
    (sessionStep st .onConnected).conn = .connected ∧
    (sessionStep st .onDisconnected).conn = .disconnected ∧
    (sessionStep st (.onError message)).conn = .error ∧
    (sessionStep st (.onMediaDeviceFailure f)).conn = st.conn ∧
    (sessionStep st .retryConnect).conn = .connecting ∧
    (sessionStep st .retryConnect).connectKey = st.connectKey + 1 := by
  refine ⟨rfl, rfl, rfl, ?_, rfl, rfl⟩
  cases f <;> rfl

/-- C9: once a backend has been selected (`db` non-null), `initMetricsDb`
neither changes the selection nor touches either backend's stored contents
(it only re-runs the idempotent `CREATE TABLE IF NOT EXISTS`), and no public
entry point ever re-makes the choice. -/
theorem C9_init_idempotent (st : StoreState) (b : Backend) (h : st.db = some b)
    (limit : Nat) (ms : List HealthMetric) (m : HealthMetric) :
    (initMetricsDb st).db = some b ∧
    (initMetricsDb st).memCache = st.memCache ∧
    (initMetricsDb st).sqliteRows = st.sqliteRows ∧
    ((loadCachedMetrics st limit).1).db = some b ∧
    (storeMetrics st ms).db = some b ∧
    (addMetric st m).db = some b := by
  cases b <;>
    simp [initMetricsDb, backendInit, h, loadCachedMetrics, storeMetrics, addMetric,
      ensureDb, backendLoad, backendStore, backendAdd]

/-- C9 witness: the claim applied to an already-initialized memory-backend
store holding one cached reading. -/
theorem C9_init_idempotent_witness :
    (initMetricsDb ⟨some .memory, false, false, [hr80], []⟩).db = some Backend.memory ∧
    (initMetricsDb ⟨some .memory, false, false, [hr80], []⟩).memCache = [hr80] :=
  ⟨(C9_init_idempotent ⟨some .memory, false, false, [hr80], []⟩ .memory rfl 20 [] hr80).1,
   (C9_init_idempotent ⟨some .memory, false, false, [hr80], []⟩ .memory rfl 20 [] hr80).2.1⟩

/-- C10: each public store operation called with no backend selected first
initializes one (the state it leaves always carries a backend), and behaves
exactly as if `initMetricsDb` had been called beforehand; in the model, as in
the source via `db?.… ?? []`, no call can observe an uninitialized-store
failure. -/
theorem C10_ops_before_init (st : StoreState) (limit : Nat) (ms : List HealthMetric)
    (m : HealthMetric) (h : st.db = none) :
    ((loadCachedMetrics st limit).1).db.isSome ∧
    (storeMetrics st ms).db.isSome ∧
    (addMetric st m).db.isSome ∧
    loadCachedMetrics st limit = loadCachedMetrics (initMetricsDb st) limit ∧
    storeMetrics st ms = storeMetrics (initMetricsDb st) ms ∧
    addMetric st m = addMetric (initMetricsDb st) m := by
  cases hs : st.sqliteAvailable <;>
    simp [loadCachedMetrics, storeMetrics, addMetric, ensureDb, initMetricsDb, backendInit,
      h, hs, backendLoad, backendStore, backendAdd]

/-- C10 witness: the claim applied to a never-initialized store in a process
without the sqlite module. -/
theorem C10_ops_before_init_witness :
    ((loadCachedMetrics ⟨none, false, false, [hr80], []⟩ 20).1).db.isSome ∧
    loadCachedMetrics ⟨none, false, false, [hr80], []⟩ 20
      = loadCachedMetrics (initMetricsDb ⟨none, false, false, [hr80], []⟩) 20 :=
  ⟨(C10_ops_before_init ⟨none, false, false, [hr80], []⟩ 20 [] hr80 rfl).1,
   (C10_ops_before_init ⟨none, false, false, [hr80], []⟩ 20 [] hr80 rfl).2.2.2.1⟩
